import Mathlib

/-!
# Verification of the bevy-test-game core (hex grid, pathfinding, movement, combat)

Shallow embedding of the game's core logic:
* axial hex coordinates and the radius-10 hexagon grid built by `setup_grid` (src/main.rs),
* the uniform-cost pathfinder used at every call site (`a_star(start, goal, |h| Some(1))`),
* the leg-stitching done by `spawn_enemy` (src/gameplay/enemy.rs),
* the per-tick enemy movement step `enemy_walking` / `approximate_pos` (src/gameplay/enemy.rs),
* the bullet step `move_bullets` and attack timer `building_shooting` (src/gameplay/buildings.rs),
* the two-click route planner `on_object_clicked` / `listen_for_route_planning` (src/main.rs),
* the random prop placement `spawn_stuff` (src/main.rs).

Continuous quantities (the game's `f32` vectors and seconds) are modelled with exact
rationals; the properties checked here are structural facts about the update formulas
(what is multiplied by what, which branch is taken), not float-rounding behaviour.
Fallible operations (`unwrap`, despawn) are modelled with `Option`, `none` standing for
a panic / a despawned entity.
-/

/-- Axial hex coordinate, mirroring `hexx::Hex { x, y }`. -/
structure Hex where
  x : Int
  y : Int
deriving DecidableEq, Repr

/-- Hex-grid distance between two axial coordinates
(`hexx`: `(|dx| + |dy| + |dx + dy|) / 2`). -/
def hexDist (a b : Hex) : Nat :=
  ((a.x - b.x).natAbs + (a.y - b.y).natAbs + (a.x + a.y - b.x - b.y).natAbs) / 2

/-- The six axial neighbour offsets of a hex cell. -/
def hexDirections : List Hex :=
  [⟨1, 0⟩, ⟨1, -1⟩, ⟨0, -1⟩, ⟨-1, 0⟩, ⟨-1, 1⟩, ⟨0, 1⟩]

def hexAdd (a b : Hex) : Hex := ⟨a.x + b.x, a.y + b.y⟩

/-- One greedy step from `cur` toward `goal`: the first neighbour direction (in the
fixed order of `hexDirections`) that strictly reduces the hex distance to `goal`. -/
def stepToward (cur goal : Hex) : Hex :=
  match (hexDirections.filter fun d => hexDist (hexAdd cur d) goal < hexDist cur goal).head? with
  | some d => hexAdd cur d
  | none => cur

/-- Fuel-bounded greedy walk from `cur` to `goal`, recording every visited cell. -/
def findPathGo : Nat → Hex → Hex → List Hex
  | 0, cur, _ => [cur]
  | n + 1, cur, goal => if cur = goal then [cur] else cur :: findPathGo n (stepToward cur goal) goal

/-- Modelled from the spec: `hexx::algorithms::a_star` is external library code absent
from this repository's sources. Per the spec's PathFinder contract it returns a
minimum-cost path from `start` to `goal` (both endpoints included), deterministic for
fixed inputs. Every call site in this repository passes the constant cost function
`|h| Some(1)` (uniform cost, nothing impassable), so on an open grid the result is a
shortest hex path: `hexDist start goal` steps. This model realises that contract with a
deterministic greedy shortest walk. -/
def find_path (start goal : Hex) : Option (List Hex) :=
  some (findPathGo (hexDist start goal) start goal)

/-- The uniform cost function passed at every `a_star` call site: `|h| Some(1)`. -/
def uniformCost (_ : Hex) : Option Nat := some 1

/-- Membership in the grid built by `setup_grid`: `shapes::hexagon(Hex::ZERO, 10)`
populates exactly the cells at hex distance ≤ 10 from the origin. -/
def inGrid (h : Hex) : Bool := hexDist ⟨0, 0⟩ h ≤ 10

/-- Lookup in `map.entities` (the `HashMap<Hex, Entity>` of `setup_grid`): a coordinate
inside the radius-10 hexagon has an entity, any other coordinate is absent. The entity
payload is opaque to the claims, so it is modelled as `Unit`. -/
def mapGet (h : Hex) : Option Unit := if inGrid h then some () else none

/-- The key list of `spawn_stuff` (`map.entities.keys().collect::<Vec<Hex>>()`): the
cells of the radius-10 hexagon, in some enumeration order. -/
def gridKeys : List Hex :=
  (List.range 21).flatMap fun qi =>
    (List.range 21).filterMap fun ri =>
      let h : Hex := ⟨(qi : Int) - 10, (ri : Int) - 10⟩
      if inGrid h then some h else none

/-! ## spawn_enemy: route legs and stitching (src/gameplay/enemy.rs, lines 126-189) -/

/-- The spawn cell of `spawn_enemy`: `Hex { x: 0, y: -13 }`. -/
def initial_hex_field : Hex := ⟨0, -13⟩

/-- Waypoint `pos_1` of `spawn_enemy`. -/
def pos_1 : Hex := ⟨5, -7⟩

/-- Waypoint `pos_2` of `spawn_enemy`. -/
def pos_2 : Hex := ⟨0, 0⟩

/-- Waypoint `pos_3` of `spawn_enemy`. -/
def pos_3 : Hex := ⟨-9, 13⟩

/-- One `if let Some(hex_fields) = path { ... }` block of `spawn_enemy`, stripped of the
entity lookups: when the leg resolves, every coordinate of the leg (start and goal
included) is pushed onto `full_path`; a failed leg is skipped. -/
def pushLeg (acc : List Hex) (start goal : Hex) : List Hex :=
  match find_path start goal with
  | none => acc
  | some leg => acc ++ leg

/-- The `full_path` built by `spawn_enemy`: the three legs
start→pos_1, pos_1→pos_2, pos_2→pos_3, concatenated in full. -/
def spawnFullPath : List Hex :=
  pushLeg (pushLeg (pushLeg [] initial_hex_field pos_1) pos_1 pos_2) pos_2 pos_3

/-- One `if let Some(hex_fields) = path { ... }` block of `spawn_enemy` with the entity
lookups included: for each coordinate the code does `map.entities.get(pos).unwrap()`
before pushing, so a coordinate absent from the map is a panic (`none`). -/
def pushLegChecked (acc : Option (List Hex)) (start goal : Hex) : Option (List Hex) := do
  let acc ← acc
  match find_path start goal with
  | none => pure acc
  | some leg => do
      let _ ← leg.mapM mapGet
      pure (acc ++ leg)

/-- The path-building part of `spawn_enemy` as executed against the radius-10 grid,
ending with `full_path.get(1).unwrap()` (the enemy's first `next_location`).
`none` models a panic. -/
def spawn_enemy_path : Option (List Hex × Hex) := do
  let p ← pushLegChecked (pushLegChecked (pushLegChecked (some []) initial_hex_field pos_1)
      pos_1 pos_2) pos_2 pos_3
  let first ← p.get? 1
  pure (p, first)

/-! ## enemy_walking: next-waypoint lookup (src/gameplay/enemy.rs, lines 76-89) -/

/-- The `walking_path.path.windows(2).for_each` scan of `enemy_walking`: every
consecutive pair `(h1, h2)` is visited left to right, and whenever `target == h1` the
candidate is overwritten with `Some(h2)`; the accumulator starts at `None`. -/
def nextWaypointLookup (path : List Hex) (target : Hex) : Option Hex :=
  (path.zip path.tail).foldl (fun acc pr => if target = pr.1 then some pr.2 else acc) none

/-! ## Route planning (src/main.rs, lines 247-287) -/

/-- Entity handles are opaque; numbering them is enough for the claims. -/
abbrev Entity := Nat

/-- The `RoutePlanner` resource: the two recorded picks. -/
structure RoutePlanner where
  obj1 : Option Entity
  obj2 : Option Entity
deriving DecidableEq, Repr

/-- `on_object_clicked`: if no first pick is recorded the click becomes the first pick;
otherwise it becomes the second pick and a `RouteChosenEvent` is sent (the `Bool`). -/
def on_object_clicked (planner : RoutePlanner) (target : Entity) : RoutePlanner × Bool :=
  if planner.obj1.isNone then ({ planner with obj1 := some target }, false)
  else ({ planner with obj2 := some target }, true)

/-- Processing of one `RouteChosenEvent` by `listen_for_route_planning`. The code runs
`hex_query.get(planner.obj1.unwrap()).unwrap()` and likewise for `obj2`, so a missing
pick or a pick without a `HexLocation` is a panic (`none`), reached before the reset.
On success the route (found with the constant cost `|h| Some(1)`) is highlighted and
the planner is reset to `{ obj1: None, obj2: None }`. Returns the reset planner and the
highlighted coordinates. -/
def listen_for_route_planning (planner : RoutePlanner) (hexQuery : Entity → Option Hex) :
    Option (RoutePlanner × List Hex) := do
  let e1 ← planner.obj1
  let startLoc ← hexQuery e1
  let e2 ← planner.obj2
  let endLoc ← hexQuery e2
  let highlighted := (find_path startLoc endLoc).getD []
  pure ({ obj1 := none, obj2 := none }, highlighted)

/-! ## enemy_walking: per-tick movement (src/gameplay/enemy.rs, lines 52-104)

The game stores positions as `f32` vectors; they are modelled with exact rationals.
-/

/-- A 3D position (`bevy::Vec3`), with exact rational components. -/
structure Vec3 where
  x : ℚ
  y : ℚ
  z : ℚ
deriving DecidableEq, Repr

def Vec3.zero : Vec3 := ⟨0, 0, 0⟩

/-- A 2D world position (`bevy::Vec2`), as produced by `layout.hex_to_world_pos`. -/
structure Vec2 where
  x : ℚ
  y : ℚ
deriving DecidableEq, Repr

/-- Truncation toward zero, `f32::trunc`. -/
def ratTrunc (q : ℚ) : Int := if 0 ≤ q then ⌊q⌋ else ⌈q⌉

/-- `approximate_pos`: each component is multiplied by 7.0 and truncated toward zero;
a vector whose components are all below 1/7 in absolute value maps to `Vec3::ZERO`. -/
def approximate_pos (input : Vec3) : Vec3 :=
  ⟨(ratTrunc (input.x * 7) : ℚ), (ratTrunc (input.y * 7) : ℚ), (ratTrunc (input.z * 7) : ℚ)⟩

/-- The per-enemy state read and written by `enemy_walking`: the entity's `Transform`
translation, its `HexLocation`, and its `WalkingPath { path, next_location }`. -/
structure WalkState where
  translation : Vec3
  location : Hex
  nextLocation : Hex
  path : List Hex
deriving DecidableEq, Repr

/-- One `enemy_walking` iteration for one enemy. `hexToWorld` stands for
`map.layout.hex_to_world_pos` (the concrete layout maps hexes to positions built from
`√3`; the step logic is independent of the particular embedding, so the layout is a
parameter). `dt` is `time.delta_seconds()`. Result `none` models the
`EnemyArrivedAtEnd` event (the walker's life ends; the entity is despawned and
respawned by `handle_enemy_events`); `some s` is the updated state:
* `movement_vec = (future.x - pos.x, 0, future.y - pos.z)`;
* if `approximate_pos movement_vec == Vec3::ZERO` the enemy has arrived: at the final
  waypoint (`location == next_location`) the arrival event fires, otherwise `location`
  is set to `next_location` and the `windows(2)` scan picks the new `next_location`;
* otherwise `translation += movement_vec * (dt * 1.1)`. -/
def enemy_walking_step (hexToWorld : Hex → Vec2) (dt : ℚ) (s : WalkState) :
    Option WalkState :=
  let currentPos := s.translation
  let futurePos := hexToWorld s.nextLocation
  let movementVec : Vec3 := ⟨futurePos.x - currentPos.x, 0, futurePos.y - currentPos.z⟩
  if approximate_pos movementVec = Vec3.zero then
    if s.location = s.nextLocation then
      none
    else
      let updated := nextWaypointLookup s.path s.nextLocation
      some { s with
        location := s.nextLocation,
        nextLocation := updated.getD s.nextLocation }
  else
    some { s with translation :=
      ⟨currentPos.x + movementVec.x * (dt * (11 / 10)),
       currentPos.y + movementVec.y * (dt * (11 / 10)),
       currentPos.z + movementVec.z * (dt * (11 / 10))⟩ }

/-! ## Bullets (src/gameplay/buildings.rs, lines 62-76) -/

/-- A bullet's components: the `Bullet { speed, life_timer }` data and its `Transform`
translation. The `life_timer` is a `TimerMode::Once` timer, kept as its elapsed and
total duration in seconds. -/
structure BulletState where
  speed : ℚ
  lifeElapsed : ℚ
  lifeDuration : ℚ
  translation : Vec3
deriving DecidableEq, Repr

/-- Modelled from the spec (`bevy::Timer` is external library code absent from this
repository): a once-mode timer's `tick(dt)` accumulates elapsed time, saturating at the
total duration, and `finished()` is true when the accumulated time has reached the
duration. -/
def onceTimerTick (elapsed duration dt : ℚ) : ℚ := min (elapsed + dt) duration

/-- One `move_bullets` iteration for one bullet: `translation.x += speed` (no `dt`
factor, always along the world x axis), then `life_timer.tick(dt)`; if the timer
finished the bullet entity is despawned (`none`). -/
def move_bullets_step (dt : ℚ) (b : BulletState) : Option BulletState :=
  let translation := { b.translation with x := b.translation.x + b.speed }
  let lifeElapsed := onceTimerTick b.lifeElapsed b.lifeDuration dt
  if b.lifeDuration ≤ lifeElapsed then none
  else some { b with translation := translation, lifeElapsed := lifeElapsed }

/-- The bullet spawned by `building_shooting`: speed `0.2`, lifetime 300 ms, placed at
the shooting building's x/z with y = 0.3. -/
def spawnedBullet (buildingX buildingZ : ℚ) : BulletState :=
  ⟨1 / 5, 0, 3 / 10, ⟨buildingX, 3 / 10, buildingZ⟩⟩

/-! ## Attack timer (src/gameplay/buildings.rs, lines 30-60; src/ui/player.rs, 154-161)

`on_hex_field_click` gives a placed building `Timer::new(Duration::from_millis(800),
TimerMode::Repeating)`; every `building_shooting` run ticks it and fires when
`finished()`.
-/

/-- A repeating attack timer, in integer milliseconds. -/
structure AttackTimer where
  period : Nat
  elapsed : Nat
deriving DecidableEq, Repr

/-- Modelled from the spec (`bevy::Timer` is external library code absent from this
repository): a repeating timer's `tick(dt)` adds `dt` to the elapsed accumulator; when
the accumulator reaches the period, `finished()` is true for that tick and the
accumulator is reset to zero minus the overflow (wrapped modulo the period). The
returned `Bool` is `finished()` right after the tick, which is what
`building_shooting` consumes. -/
def attackTimerTick (t : AttackTimer) (dt : Nat) : AttackTimer × Bool :=
  let e := t.elapsed + dt
  if t.period ≤ e then ({ t with elapsed := e % t.period }, true)
  else ({ t with elapsed := e }, false)

/-- Run an attack timer for `n` ticks of `dt` milliseconds each, counting the ticks on
which `finished()` was true. -/
def runAttackTimer (t : AttackTimer) (dt : Nat) : Nat → AttackTimer × Nat
  | 0 => (t, 0)
  | n + 1 =>
    let (t', c) := runAttackTimer t dt n
    let (t'', fired) := attackTimerTick t' dt
    (t'', c + if fired then 1 else 0)

/-- Whether `finished()` is true on the `k`-th tick (1-based) of a run with steps of
`dt` milliseconds. -/
def readyOnTick (t : AttackTimer) (dt k : Nat) : Bool :=
  (attackTimerTick (runAttackTimer t dt (k - 1)).1 dt).2

/-! ## Theorems -/

/-- C1. The claim asserts the true hex distance from (0,-13) to (5,-7) — and hence the
step count of the returned path — is 7. It is 11: the axial deltas are (5, 6) and the
third cube delta is −11, so the distance is (5 + 6 + 11)/2 = 11, and the uniform-cost
path indeed takes 11 steps, not 7. -/
theorem C1_counterexample :
    hexDist initial_hex_field pos_1 = 11 ∧ (11 : Nat) ≠ 7 ∧
      (find_path initial_hex_field pos_1).map (fun p => p.length - 1) = some 11 := by
  refine ⟨by decide, by decide, by decide⟩

/-- C1 (amended): with uniform cost 1, `find_path` from (0,-13) to (5,-7) returns a
path whose step count equals the true hex distance between the two axial coordinates —
which is 11, not 7 — and whose first and last coordinates are exactly the start and
the goal. -/
theorem C1_path_matches_hex_distance :
    hexDist initial_hex_field pos_1 = 11 ∧
      (find_path initial_hex_field pos_1).map (fun p => p.length - 1)
        = some (hexDist initial_hex_field pos_1) ∧
      (find_path initial_hex_field pos_1).bind List.head? = some initial_hex_field ∧
      (find_path initial_hex_field pos_1).bind List.getLast? = some pos_1 := by
  refine ⟨by decide, by decide, by decide, by decide⟩

/-- C2. The claim asserts the junction coordinate between consecutive legs appears
exactly once in the stitched path. `spawn_enemy` pushes every leg in full, dropping
nothing, so the junction `pos_1 = (5,-7)` — last cell of leg 1 and first cell of
leg 2 — appears twice in `full_path`. -/
theorem C2_counterexample :
    spawnFullPath.count pos_1 = 2 ∧ (2 : Nat) ≠ 1 := by
  refine ⟨by decide, by decide⟩

/-- C2 (amended): the per-leg `find_path` results are concatenated in full, with no
junction coordinate dropped: each leg ends with the junction and the following leg
starts with it again, so each junction coordinate appears exactly twice in the
stitched `full_path`. -/
theorem C2_junction_appears_twice :
    (find_path initial_hex_field pos_1).bind List.getLast? = some pos_1 ∧
      (find_path pos_1 pos_2).bind List.head? = some pos_1 ∧
      (find_path pos_1 pos_2).bind List.getLast? = some pos_2 ∧
      (find_path pos_2 pos_3).bind List.head? = some pos_2 ∧
      spawnFullPath.count pos_1 = 2 ∧ spawnFullPath.count pos_2 = 2 := by
  refine ⟨by decide, by decide, by decide, by decide, by decide, by decide⟩

/-- C9. In `spawn_enemy` every leg is computed with the cost function `|h| Some(1)`,
which never marks a cell impassable, while `setup_grid` only populates the hexagon of
radius 10 around the origin. The spawn cell (0,-13) is at hex distance 13 from the
origin, so the very first coordinate of the first leg is absent from
`map.entities`, and the unguarded `map.entities.get(pos).unwrap()` panics during the
initial enemy spawn instead of treating absence as impassable. -/
theorem C9_spawn_enemy_unwrap_faults :
    (∀ h : Hex, uniformCost h = some 1) ∧
      hexDist ⟨0, 0⟩ initial_hex_field = 13 ∧
      inGrid initial_hex_field = false ∧
      initial_hex_field ∈ (find_path initial_hex_field pos_1).getD [] ∧
      mapGet initial_hex_field = none ∧
      spawn_enemy_path = none := by
  refine ⟨fun h => rfl, by decide, by decide, by decide, by decide, by decide⟩

set_option maxRecDepth 8000 in
/-- C10. `spawn_stuff` draws its random index from `0..keys.len() + 1`: the outcome
`keys.len()` lies in that range, `keys.get(keys.len())` is `None`, and the following
`unwrap` panics; every index drawn from `0..keys.len()` instead yields `Some`. -/
theorem C10_spawn_stuff_index_out_of_range :
    gridKeys.length < gridKeys.length + 1 ∧
      gridKeys[gridKeys.length]? = none ∧
      ∀ i : Nat, i < gridKeys.length → gridKeys[i]?.isSome = true := by
  refine ⟨Nat.lt_succ_self _, List.getElem?_len_le (Nat.le_refl _), ?_⟩
  intro i hi
  simp [List.getElem?_eq_getElem hi]

/-- C5. The claim asserts the selection state is reset even when resolving a pick's
grid coordinate fails, a failed pick being skipped rather than propagated. In the code
both lookups go through `unwrap` before the reset, so a pick without a grid coordinate
panics (`none`): no reset planner is produced at all, and the fault propagates. -/
theorem C5_counterexample :
    listen_for_route_planning ⟨some 0, some 1⟩ (fun _ => none) = none ∧
      (listen_for_route_planning ⟨some 0, some 1⟩ (fun _ => none)).map Prod.fst
        ≠ some ⟨none, none⟩ := by
  exact ⟨rfl, by decide⟩

/-- C5 (amended): two `submit_pick` clicks on an empty selection produce exactly one
"route chosen" event, on the second click; on processing it, *when both picks still
resolve to grid coordinates*, the selection state is reset to `{none, none}` (the
highlight result plays no role in the reset). When either lookup fails, the `unwrap`
panics before the reset is reached. -/
theorem C5_reset_after_successful_resolution (e1 e2 : Entity) (q : Entity → Option Hex)
    (s g : Hex) (h1 : q e1 = some s) (h2 : q e2 = some g) :
    (on_object_clicked ⟨none, none⟩ e1) = (⟨some e1, none⟩, false) ∧
      (on_object_clicked ⟨some e1, none⟩ e2) = (⟨some e1, some e2⟩, true) ∧
      ∃ highlighted, listen_for_route_planning ⟨some e1, some e2⟩ q
        = some (⟨none, none⟩, highlighted) := by
  refine ⟨rfl, rfl, (find_path s g).getD [], ?_⟩
  simp [listen_for_route_planning, h1, h2]

/-- Witness for C5: both picks resolve on a two-entity query, and the planner comes
out reset. -/
theorem C5_witness :
    (on_object_clicked ⟨none, none⟩ 0) = (⟨some 0, none⟩, false) ∧
      (on_object_clicked ⟨some 0, none⟩ 1) = (⟨some 0, some 1⟩, true) ∧
      ∃ highlighted, listen_for_route_planning ⟨some 0, some 1⟩
          (fun n => if n = 0 then some ⟨0, 0⟩ else some ⟨1, 0⟩)
        = some (⟨none, none⟩, highlighted) :=
  C5_reset_after_successful_resolution 0 1
    (fun n => if n = 0 then some ⟨0, 0⟩ else some ⟨1, 0⟩) ⟨0, 0⟩ ⟨1, 0⟩ rfl rfl

/-- C6. The claim asserts the next-waypoint lookup takes the *first* matching
occurrence of the just-reached coordinate in a left-to-right scan. The `windows(2)`
loop overwrites its candidate on every match without breaking, so the *last* match
wins: on the path [(0,0),(1,0),(0,0),(0,1)] with target (0,0), a first-occurrence scan
gives (1,0), but the code yields (0,1). -/
theorem C6_counterexample :
    nextWaypointLookup [⟨0, 0⟩, ⟨1, 0⟩, ⟨0, 0⟩, ⟨0, 1⟩] ⟨0, 0⟩ = some ⟨0, 1⟩ ∧
      (some (⟨0, 1⟩ : Hex)) ≠ some ⟨1, 0⟩ := by
  exact ⟨by decide, by decide⟩

/-- Overwriting fold over a pair list returns the last match (or the initial value). -/
theorem foldl_overwrite_last_match (t : Hex) :
    ∀ (l : List (Hex × Hex)) (init : Option Hex),
      l.foldl (fun acc pr => if t = pr.1 then some pr.2 else acc) init
        = (l.reverse.find? fun pr => t == pr.1).elim init (fun pr => some pr.2) := by
  intro l
  induction l with
  | nil => intro init; rfl
  | cons a l ih =>
    intro init
    rw [List.foldl_cons, ih, List.reverse_cons, List.find?_append]
    rcases hfind : l.reverse.find? (fun pr => t == pr.1) with _ | pr
    · rw [hfind]
      by_cases h : t = a.1
      · have hb : (t == a.1) = true := by simpa using h
        simp [List.find?, hb, h, Option.elim, Option.or]
      · have hb : (t == a.1) = false := by simpa using h
        simp [List.find?, hb, h, Option.elim, Option.or]
    · rw [hfind]
      simp [Option.elim, Option.or]

/-- C6 (amended): when the just-reached coordinate occurs more than once in the path,
the `windows(2)` lookup of `enemy_walking` yields the successor of the *last* matching
occurrence encountered in the left-to-right scan (the fold overwrites its candidate on
every match), not the first. -/
theorem C6_lookup_uses_last_occurrence (path : List Hex) (target : Hex) :
    nextWaypointLookup path target
      = ((path.zip path.tail).reverse.find? fun pr => target == pr.1).elim
          none (fun pr => some pr.2) := by
  exact foldl_overwrite_last_match target (path.zip path.tail) none

/-- Invariant of a repeating timer driven from a fresh state by `n` ticks of `dt` each
(with `dt ≤ P`): the accumulator holds `(n·dt) mod P` and `finished()` has been true
`⌊n·dt / P⌋` times. -/
theorem runAttackTimer_invariant (P dt : Nat) (hP : 0 < P) (hdt : dt ≤ P) :
    ∀ n : Nat, runAttackTimer ⟨P, 0⟩ dt n = (⟨P, (n * dt) % P⟩, n * dt / P) := by
  intro n
  induction n with
  | zero => simp [runAttackTimer]
  | succ n ih =>
    have key : runAttackTimer ⟨P, 0⟩ dt (n + 1)
        = ((attackTimerTick ⟨P, (n * dt) % P⟩ dt).1,
            n * dt / P + if (attackTimerTick ⟨P, (n * dt) % P⟩ dt).2 then 1 else 0) := by
      rw [runAttackTimer, ih]
    rw [key, attackTimerTick]
    have hmlt : (n * dt) % P < P := Nat.mod_lt _ hP
    by_cases hc : P ≤ (n * dt) % P + dt
    · have hdiv : (n * dt + dt) / P = n * dt / P + 1 := by
        conv_lhs => rw [← Nat.div_add_mod (n * dt) P]
        rw [Nat.add_assoc, Nat.mul_add_div hP]
        have h1 : ((n * dt) % P + dt) / P = 1 :=
          Nat.div_eq_of_lt_le (by simpa using hc) (by omega)
        rw [h1]
      have hmod : (n * dt + dt) % P = ((n * dt) % P + dt) % P :=
        (Nat.mod_add_mod (n * dt) P dt).symm
      simp only [if_pos hc]
      rw [Nat.succ_mul, hdiv, hmod]
      simp
    · have hlt : (n * dt) % P + dt < P := Nat.lt_of_not_le hc
      have hdiv : (n * dt + dt) / P = n * dt / P := by
        conv_lhs => rw [← Nat.div_add_mod (n * dt) P]
        rw [Nat.add_assoc, Nat.mul_add_div hP, Nat.div_eq_of_lt hlt, Nat.add_zero]
      have hmod : (n * dt + dt) % P = (n * dt) % P + dt := by
        rw [← Nat.mod_add_mod, Nat.mod_eq_of_lt hlt]
      simp only [if_neg hc]
      rw [Nat.succ_mul, hdiv, hmod]
      simp

/-- C7. The claim asserts `ready()` fires `⌊T/P⌋` times over any run of total elapsed
time `T`, within one tick's slack. A single tick may cross several period boundaries
yet report `finished()` only once: one 4000 ms tick of an 800 ms timer yields one
ready, while `⌊T/P⌋ = 5` — a shortfall of 4, beyond one tick's slack. -/
theorem C7_counterexample :
    (runAttackTimer ⟨800, 0⟩ 4000 1).2 = 1 ∧ 1 * 4000 / 800 = 5 ∧
      ¬ ((5 : Nat) - 1 ≤ 1) := by
  exact ⟨by decide, by decide, by decide⟩

/-- C7 (amended): when each tick is at most one period long (`dt ≤ P`, as in every
scenario the game produces), `ready()` fires exactly `⌊n·dt / P⌋` times over `n` ticks;
in particular the 800 ms building timer ticked with `dt = 100` ms fires exactly once in
eight ticks, on the 8th tick and not earlier. A tick longer than a full period crosses
several boundaries but reports ready only once, so there the count is the number of
boundary-crossing ticks, not `⌊T/P⌋`. -/
theorem C7_ready_count (P dt n : Nat) (hP : 0 < P) (hdt : dt ≤ P) :
    (runAttackTimer ⟨P, 0⟩ dt n).2 = n * dt / P ∧
      (runAttackTimer ⟨800, 0⟩ 100 8).2 = 1 ∧
      readyOnTick ⟨800, 0⟩ 100 8 = true ∧
      ∀ k, k < 7 → readyOnTick ⟨800, 0⟩ 100 (k + 1) = false := by
  refine ⟨?_, by decide, by decide, by decide⟩
  rw [runAttackTimer_invariant P dt hP hdt n]

/-- Witness for C7: the concrete building timer (period 800 ms, dt 100 ms, 8 ticks). -/
theorem C7_witness :
    (runAttackTimer ⟨800, 0⟩ 100 8).2 = 8 * 100 / 800 ∧
      (runAttackTimer ⟨800, 0⟩ 100 8).2 = 1 ∧
      readyOnTick ⟨800, 0⟩ 100 8 = true ∧
      ∀ k, k < 7 → readyOnTick ⟨800, 0⟩ 100 (k + 1) = false :=
  C7_ready_count 800 100 8 (by decide) (by decide)

/-- C3. The claim asserts each tick moves the walker by `direction.normalize() * v *
dt`, clamped not to overshoot the target waypoint's world position. The code adds the
*unnormalized* remaining displacement times `dt * 1.1` with no clamp: starting at
x = 0 with the waypoint's world position at x = 9/10 and dt = 1, the walker lands at
x = 99/100, strictly beyond the waypoint — the move overshoots. -/
theorem C3_counterexample :
    (enemy_walking_step (fun _ => ⟨9 / 10, 0⟩) 1
        ⟨⟨0, 0, 0⟩, ⟨0, 0⟩, ⟨1, 0⟩, [⟨0, 0⟩, ⟨1, 0⟩]⟩).map (fun s => s.translation.x)
      = some (99 / 100) ∧ ¬ ((99 : ℚ) / 100 ≤ 9 / 10) := by
  constructor
  · norm_num [enemy_walking_step, approximate_pos, ratTrunc, Vec3.zero]
  · norm_num

/-- C3 (amended): on a tick in the moving branch, the walker's position advances by the
full (unnormalized) remaining displacement scaled by `dt * 1.1`, with no clamping: the
remaining x- and z-displacements are each multiplied by `1 - dt * 1.1` (so the step
size is proportional to the remaining distance rather than a fixed speed, and
`dt > 10/11` overshoots); the y-coordinate, hex location, waypoint cursor and path are
unchanged. -/
theorem C3_step_scales_remaining_displacement (w : Hex → Vec2) (dt : ℚ) (s : WalkState)
    (hmove : approximate_pos ⟨(w s.nextLocation).x - s.translation.x, 0,
        (w s.nextLocation).y - s.translation.z⟩ ≠ Vec3.zero) :
    ∃ s', enemy_walking_step w dt s = some s' ∧
      (w s.nextLocation).x - s'.translation.x
        = (1 - dt * (11 / 10)) * ((w s.nextLocation).x - s.translation.x) ∧
      (w s.nextLocation).y - s'.translation.z
        = (1 - dt * (11 / 10)) * ((w s.nextLocation).y - s.translation.z) ∧
      s'.translation.y = s.translation.y ∧
      s'.location = s.location ∧ s'.nextLocation = s.nextLocation ∧ s'.path = s.path := by
  have hstep : enemy_walking_step w dt s = some { s with translation :=
      ⟨s.translation.x + ((w s.nextLocation).x - s.translation.x) * (dt * (11 / 10)),
       s.translation.y + 0 * (dt * (11 / 10)),
       s.translation.z + ((w s.nextLocation).y - s.translation.z) * (dt * (11 / 10))⟩ } := by
    simp only [enemy_walking_step]
    rw [if_neg hmove]
  refine ⟨_, hstep, ?_, ?_, ?_, rfl, rfl, rfl⟩
  · show (w s.nextLocation).x -
        (s.translation.x + ((w s.nextLocation).x - s.translation.x) * (dt * (11 / 10))) = _
    ring
  · show (w s.nextLocation).y -
        (s.translation.z + ((w s.nextLocation).y - s.translation.z) * (dt * (11 / 10))) = _
    ring
  · show s.translation.y + 0 * (dt * (11 / 10)) = s.translation.y
    ring

/-- Witness for C3: the walker one world-unit-tenth short of its waypoint is in the
moving branch, and one tick scales its remaining displacement by `1 - 1.1·dt`. -/
theorem C3_witness :
    ∃ s', enemy_walking_step (fun _ => ⟨9 / 10, 0⟩) 1
        ⟨⟨0, 0, 0⟩, ⟨0, 0⟩, ⟨1, 0⟩, [⟨0, 0⟩, ⟨1, 0⟩]⟩ = some s' ∧
      ((fun _ : Hex => (⟨9 / 10, 0⟩ : Vec2)) ⟨1, 0⟩).x - s'.translation.x
        = (1 - 1 * (11 / 10)) * (((fun _ : Hex => (⟨9 / 10, 0⟩ : Vec2)) ⟨1, 0⟩).x - 0) ∧
      ((fun _ : Hex => (⟨9 / 10, 0⟩ : Vec2)) ⟨1, 0⟩).y - s'.translation.z
        = (1 - 1 * (11 / 10)) * (((fun _ : Hex => (⟨9 / 10, 0⟩ : Vec2)) ⟨1, 0⟩).y - 0) ∧
      s'.translation.y = 0 ∧ s'.location = ⟨0, 0⟩ ∧ s'.nextLocation = ⟨1, 0⟩ ∧
      s'.path = [⟨0, 0⟩, ⟨1, 0⟩] :=
  C3_step_scales_remaining_displacement (fun _ => ⟨9 / 10, 0⟩) 1
    ⟨⟨0, 0, 0⟩, ⟨0, 0⟩, ⟨1, 0⟩, [⟨0, 0⟩, ⟨1, 0⟩]⟩
    (by norm_num [approximate_pos, ratTrunc, Vec3.zero])

/-- C4. The claim asserts a projectile advances by `speed * dt` per tick. `move_bullets`
does `transform.translation.x += bullet.speed` with no `dt` factor: the bullet spawned
by `building_shooting` (speed 0.2) ticked with dt = 0.1 s advances by 0.2 world units,
not by `speed * dt = 0.02`. -/
theorem C4_counterexample :
    (move_bullets_step (1 / 10) (spawnedBullet 0 0)).map (fun b => b.translation.x)
      = some (1 / 5) ∧ (1 : ℚ) / 5 ≠ 1 / 5 * (1 / 10) := by
  constructor
  · norm_num [move_bullets_step, spawnedBullet, onceTimerTick]
  · norm_num

/-- C4 (amended): each `move_bullets` tick advances the bullet's `world_position` by
`speed` along the global +x axis — independent of `dt` and of any building facing — and
advances the lifetime accumulator by `dt` (a once-mode timer, saturating at its
duration); the bullet is despawned exactly on the tick where the accumulated lifetime
reaches the duration. -/
theorem C4_bullet_speed_per_tick (dt : ℚ) (b : BulletState) :
    (b.lifeDuration ≤ b.lifeElapsed + dt → move_bullets_step dt b = none) ∧
      (b.lifeElapsed + dt < b.lifeDuration →
        move_bullets_step dt b = some { b with
          translation := { b.translation with x := b.translation.x + b.speed },
          lifeElapsed := b.lifeElapsed + dt }) := by
  constructor
  · intro h
    simp only [move_bullets_step, onceTimerTick]
    rw [min_eq_right h, if_pos (le_refl b.lifeDuration)]
  · intro h
    simp only [move_bullets_step, onceTimerTick]
    rw [min_eq_left h.le, if_neg (not_le.mpr h)]

/-- Witness for C4: the bullet of `building_shooting` (speed 0.2, lifetime 300 ms)
ticked once with dt = 0.1 s survives and moves 0.2 along x. -/
theorem C4_witness :
    move_bullets_step (1 / 10) (spawnedBullet 0 0)
      = some ⟨1 / 5, 0 + 1 / 10, 3 / 10, ⟨0 + 1 / 5, 3 / 10, 0⟩⟩ :=
  (C4_bullet_speed_per_tick (1 / 10) (spawnedBullet 0 0)).2
    (by norm_num [spawnedBullet])

/-- C8. The claim asserts a dt = 0 tick never changes the waypoint cursor and never
triggers arrival. The arrival test `approximate_pos(movement_vec) == Vec3::ZERO` does
not depend on `dt`: a walker standing exactly on its target waypoint's world position
advances its cursor (location (0,0) → (1,0), next waypoint (1,0) → (2,0)) on a dt = 0
tick, and one standing on its final waypoint emits the arrived-at-end signal
(modelled as `none`) on a dt = 0 tick. -/
theorem C8_counterexample :
    (enemy_walking_step (fun h => ⟨(h.x : ℚ), (h.y : ℚ)⟩) 0
        ⟨⟨1, 0, 0⟩, ⟨0, 0⟩, ⟨1, 0⟩, [⟨0, 0⟩, ⟨1, 0⟩, ⟨2, 0⟩]⟩).map
        (fun s => (s.location, s.nextLocation)) = some (⟨1, 0⟩, ⟨2, 0⟩) ∧
      enemy_walking_step (fun h => ⟨(h.x : ℚ), (h.y : ℚ)⟩) 0
        ⟨⟨2, 0, 0⟩, ⟨2, 0⟩, ⟨2, 0⟩, [⟨0, 0⟩, ⟨1, 0⟩, ⟨2, 0⟩]⟩ = none ∧
      ((⟨1, 0⟩ : Hex), (⟨2, 0⟩ : Hex)) ≠ ((⟨0, 0⟩ : Hex), (⟨1, 0⟩ : Hex)) := by
  refine ⟨?_, ?_, by decide⟩
  · norm_num [enemy_walking_step, approximate_pos, ratTrunc, Vec3.zero,
      nextWaypointLookup, List.zip, List.zipWith, List.foldl]
  · norm_num [enemy_walking_step, approximate_pos, ratTrunc, Vec3.zero]

/-- C8 (amended): a dt = 0 tick in the moving branch leaves the whole walker state
unchanged; the arrival branch (and hence any cursor advance or arrived-at-end signal)
is decided by position alone and behaves identically for every `dt`, including 0. -/
theorem C8_dt_zero (w : Hex → Vec2) (s : WalkState) :
    (approximate_pos ⟨(w s.nextLocation).x - s.translation.x, 0,
        (w s.nextLocation).y - s.translation.z⟩ ≠ Vec3.zero →
      enemy_walking_step w 0 s = some s) ∧
      (approximate_pos ⟨(w s.nextLocation).x - s.translation.x, 0,
          (w s.nextLocation).y - s.translation.z⟩ = Vec3.zero →
        ∀ dt dt' : ℚ, enemy_walking_step w dt s = enemy_walking_step w dt' s) := by
  constructor
  · intro h
    simp only [enemy_walking_step]
    rw [if_neg h]
    have hx : s.translation.x + ((w s.nextLocation).x - s.translation.x) * (0 * (11 / 10))
        = s.translation.x := by ring
    have hy : s.translation.y + 0 * (0 * (11 / 10)) = s.translation.y := by ring
    have hz : s.translation.z + ((w s.nextLocation).y - s.translation.z) * (0 * (11 / 10))
        = s.translation.z := by ring
    rw [hx, hy, hz]
  · intro h dt dt'
    simp only [enemy_walking_step]
    rw [if_pos h, if_pos h]

/-- Witness for C8: the walker of the C3 scenario is in the moving branch, and a
dt = 0 tick leaves it untouched. -/
theorem C8_witness :
    enemy_walking_step (fun _ => ⟨9 / 10, 0⟩) 0
        ⟨⟨0, 0, 0⟩, ⟨0, 0⟩, ⟨1, 0⟩, [⟨0, 0⟩, ⟨1, 0⟩]⟩
      = some ⟨⟨0, 0, 0⟩, ⟨0, 0⟩, ⟨1, 0⟩, [⟨0, 0⟩, ⟨1, 0⟩]⟩ :=
  (C8_dt_zero (fun _ => ⟨9 / 10, 0⟩) ⟨⟨0, 0, 0⟩, ⟨0, 0⟩, ⟨1, 0⟩, [⟨0, 0⟩, ⟨1, 0⟩]⟩).1
    (by norm_num [approximate_pos, ratTrunc, Vec3.zero])

set_option maxRecDepth 8000 in
/-- Witness for C10: index 0 is below the key count, and its lookup succeeds. -/
theorem C10_witness : gridKeys[0]?.isSome = true :=
  C10_spawn_stuff_index_out_of_range.2.2 0 (by decide)
